/-
Verification of the first-order electric-range energy model and the
parametric-sweep driver of the SCV repository.

Shallow embedding conventions:
  * Python floats are modelled as real numbers; `x ** y` with real exponent
    becomes `Real.rpow`, `np.sqrt` becomes `Real.sqrt`, `np.pi` is `Real.pi`.
  * `scipy.integrate.quad(g, a, b)[0]` is an external numerical routine; the
    development is parameterised over a function `quad : (Real -> Real) ->
    Real -> Real -> Real` standing for it.
  * A Python object of class `Aircraft` (simple_aircraft.py) is a record of
    its numeric attributes plus an association list `extras` holding
    attributes created dynamically by `setattr`; `setattr` on a read-only
    property (`total_mass`, `total_energy`) raises `AttributeError`
    (modelled as `none`), on any other name it succeeds, creating the
    attribute when it is not a declared field.
  * Console output relevant to the claims is modelled as an explicit list of
    the numeric payloads printed; functions whose prints matter return a
    pair (result, printed).
-/
import Mathlib

open scoped Classical

noncomputable section

/-- A Python object of class Aircraft: the declared numeric attributes used by
the analyses (simple_aircraft.py defaults plus the attributes the
basic_range_sim evaluator reads), together with dynamically created
attributes. -/
structure Aircraft where
  dry_mass : ℝ
  battery_mass : ℝ
  energy_density : ℝ
  packing_factor : ℝ
  inaccessible_fraction : ℝ
  reserve_fraction : ℝ
  wingspan : ℝ
  wing_area : ℝ
  wing_efficiency : ℝ
  drag_coeff_parasitic : ℝ
  cruise_speed : ℝ
  cruise_altitude : ℝ
  climb_rate : ℝ
  engine_max_power : ℝ
  prop_efficiency : ℝ
  prop_diameter : ℝ
  battery_capacity : ℝ
  cruise_ceiling : ℝ
  extras : List (String × ℝ)

/-- Python property `Aircraft.total_mass` (simple_aircraft.py). -/
def Aircraft.total_mass (c : Aircraft) : ℝ :=
  c.dry_mass + c.battery_mass

/-- Python property `Aircraft.total_energy` (simple_aircraft.py). -/
def Aircraft.total_energy (c : Aircraft) : ℝ :=
  c.battery_mass * c.energy_density * c.packing_factor

/-- The attribute names that resolve to declared data fields of the
configuration object. -/
def knownFields : List String :=
  ["dry_mass", "battery_mass", "energy_density", "packing_factor",
   "inaccessible_fraction", "reserve_fraction", "wingspan", "wing_area",
   "wing_efficiency", "drag_coeff_parasitic", "cruise_speed",
   "cruise_altitude", "climb_rate", "engine_max_power", "prop_efficiency",
   "prop_diameter", "battery_capacity", "cruise_ceiling"]

/-- Effect of a successful Python `setattr(c, name, v)`: a declared field is
overwritten; any other name silently creates a dynamic attribute. -/
def updateField (c : Aircraft) (name : String) (v : ℝ) : Aircraft :=
  if name = "dry_mass" then { c with dry_mass := v }
  else if name = "battery_mass" then { c with battery_mass := v }
  else if name = "energy_density" then { c with energy_density := v }
  else if name = "packing_factor" then { c with packing_factor := v }
  else if name = "inaccessible_fraction" then { c with inaccessible_fraction := v }
  else if name = "reserve_fraction" then { c with reserve_fraction := v }
  else if name = "wingspan" then { c with wingspan := v }
  else if name = "wing_area" then { c with wing_area := v }
  else if name = "wing_efficiency" then { c with wing_efficiency := v }
  else if name = "drag_coeff_parasitic" then { c with drag_coeff_parasitic := v }
  else if name = "cruise_speed" then { c with cruise_speed := v }
  else if name = "cruise_altitude" then { c with cruise_altitude := v }
  else if name = "climb_rate" then { c with climb_rate := v }
  else if name = "engine_max_power" then { c with engine_max_power := v }
  else if name = "prop_efficiency" then { c with prop_efficiency := v }
  else if name = "prop_diameter" then { c with prop_diameter := v }
  else if name = "battery_capacity" then { c with battery_capacity := v }
  else if name = "cruise_ceiling" then { c with cruise_ceiling := v }
  else { c with extras := (name, v) :: c.extras }

/-- Python `setattr(c, name, v)`: raises `AttributeError` (modelled `none`)
exactly when `name` resolves to a property without a setter; otherwise it
assigns, silently creating the attribute when `name` is not declared. -/
def Aircraft.setattr (c : Aircraft) (name : String) (v : ℝ) : Option Aircraft :=
  if name = "total_mass" ∨ name = "total_energy" then none
  else some (updateField c name v)

/-- Error type mandated by the spec for out-of-model inputs; the spec says
the range evaluator must fail with it for altitude above 11 km. -/
inductive DomainError
  | domainError
deriving DecidableEq

namespace FO
/- Embedding of src/Basic_Analyses/first_order_range_analysis.py. -/

def gravity : ℝ := 9.81
def R : ℝ := 287
def density_msl : ℝ := 1.225
def temp_msl : ℝ := 288.16
def Wh_to_J : ℝ := 3600

/-- The local `temp_gradient` of airDensity: `(216.7 - temp_msl) / 11000`. -/
def temp_gradient : ℝ := (216.7 - temp_msl) / 11000

/-- Embedding of `airDensity` (first_order_range_analysis.py lines 121-131): linear
temperature interpolation and the barometric power law.  Every control path
of the source returns this value; altitude above 11 km only triggers a
console warning. -/
def airDensity (altitude : ℝ) : ℝ :=
  density_msl *
    ((altitude * temp_gradient + temp_msl) / temp_msl) ^
      (-(gravity / (temp_gradient * R) + 1))

/-- The condition under which `airDensity` prints its warning. -/
def airDensityWarns (altitude : ℝ) : Prop := 11000 < altitude

/-- The observable outcome of calling `airDensity`: the source has no raise
statement, so every call returns normally; a Python exception would be
modelled as `Except.error`. -/
def airDensityE (altitude : ℝ) : Except DomainError ℝ :=
  Except.ok (airDensity altitude)

/-- Modelled from the spec: the atmosphere query as the spec demands it,
failing with DomainError above the 11 km ceiling.  Used only to compare the
source behaviour against the spec. -/
def airDensitySpec (altitude : ℝ) : Except DomainError ℝ :=
  if 11000 < altitude then Except.error DomainError.domainError
  else Except.ok (airDensity altitude)

/-- Embedding of `dynamicPressure` (line 134). -/
def dynamicPressure (density velocity : ℝ) : ℝ :=
  0.5 * density * velocity ^ (2 : ℕ)

/-- Embedding of `inducedDrag` (lines 138-145). -/
def inducedDrag (dynamic_pressure : ℝ) (cfg : Aircraft) : ℝ :=
  let aspect_ratio := cfg.wingspan ^ (2 : ℕ) / cfg.wing_area
  let lift_coeff := cfg.total_mass * gravity / (dynamic_pressure * cfg.wing_area)
  lift_coeff ^ (2 : ℕ) / (Real.pi * aspect_ratio * cfg.wing_efficiency)

/-- Embedding of `takeoffSpeed` (lines 148-157). -/
def takeoffSpeed (cfg : Aircraft) : ℝ :=
  let angle_of_attack := 15 * (Real.pi / 180)
  let CL0 := 2 * Real.pi * angle_of_attack
  let aspect_ratio := cfg.wingspan ^ (2 : ℕ) / cfg.wing_area
  let lift_coefficient :=
    CL0 / (1 + CL0 / (Real.pi * cfg.wing_efficiency * aspect_ratio))
  Real.sqrt (cfg.total_mass * gravity /
    (0.5 * airDensity 1 * lift_coefficient * cfg.wing_area))

/-- Embedding of `takeoffEnergy` (lines 160-169). -/
def takeoffEnergy (takeoff_speed : ℝ) (cfg : Aircraft) : ℝ :=
  let density := airDensity 1
  let thrust :=
    (0.5 * density * Real.pi *
      (cfg.engine_max_power * cfg.prop_efficiency * cfg.prop_diameter) ^ (2 : ℕ))
      ^ ((1 : ℝ) / 3)
  let takeoff_time := takeoff_speed * cfg.total_mass / thrust
  takeoff_time * cfg.engine_max_power

/-- The integrand `climbPower` defined inside `climbEnergy` (lines 179-187). -/
def climbPower (takeoff_speed : ℝ) (cfg : Aircraft) (time : ℝ) : ℝ :=
  let climb_time := cfg.cruise_altitude / cfg.climb_rate
  let speed := cfg.cruise_speed / climb_time * time + takeoff_speed
  let altitude := cfg.climb_rate * time
  let density := airDensity altitude
  let dynamic_pressure := dynamicPressure density speed
  let drag := (cfg.drag_coeff_parasitic + inducedDrag dynamic_pressure cfg) *
    cfg.wing_area * dynamic_pressure
  let thrust := drag + cfg.total_mass * gravity * cfg.climb_rate / speed
  thrust * speed

/-- Embedding of `climbEnergy` (lines 172-190): definite integral of `climbPower` from 0
to `climb_time`, delegated to scipy quadrature `quad`. -/
def climbEnergy (quad : (ℝ → ℝ) → ℝ → ℝ → ℝ) (takeoff_speed : ℝ)
    (cfg : Aircraft) : ℝ :=
  let climb_time := cfg.cruise_altitude / cfg.climb_rate
  quad (climbPower takeoff_speed cfg) 0 climb_time

/-- Embedding of `cruisePower` (lines 193-201). -/
def cruisePower (cfg : Aircraft) : ℝ :=
  let density := airDensity cfg.cruise_altitude
  let dynamic_pressure := dynamicPressure density cfg.cruise_speed
  let drag := cfg.wing_area * dynamic_pressure *
    (inducedDrag dynamic_pressure cfg + cfg.drag_coeff_parasitic)
  drag * cfg.cruise_speed

/-- Embedding of `climbEnergy` applied to the takeoff speed computed inside `flightRange`. -/
def climbEnergyOf (quad : (ℝ → ℝ) → ℝ → ℝ → ℝ) (cfg : Aircraft) : ℝ :=
  climbEnergy quad (takeoffSpeed cfg) cfg

/-- Embedding of `takeoffEnergy` applied to the takeoff speed computed inside
`flightRange`. -/
def takeoffEnergyOf (cfg : Aircraft) : ℝ :=
  takeoffEnergy (takeoffSpeed cfg) cfg

/-- The running `energy_stored` of `flightRange` after both subtractions. -/
def energyRemaining (quad : (ℝ → ℝ) → ℝ → ℝ → ℝ) (cfg : Aircraft) : ℝ :=
  cfg.total_energy * (1 - cfg.inaccessible_fraction) * (1 - cfg.reserve_fraction)
    - takeoffEnergyOf cfg - climbEnergyOf quad cfg

/-- Embedding of `flightRange` (lines 92-118).  Returns the range together with the list
of numeric payloads printed when `verbose` is set. -/
def flightRange (quad : (ℝ → ℝ) → ℝ → ℝ → ℝ) (verbose : Bool)
    (cfg : Aircraft) : ℝ × List ℝ :=
  let takeoff_speed := takeoffSpeed cfg
  let takeoff_energy := takeoffEnergy takeoff_speed cfg
  let climb_energy := climbEnergy quad takeoff_speed cfg
  let energy_stored :=
    cfg.total_energy * (1 - cfg.inaccessible_fraction) *
      (1 - cfg.reserve_fraction) - takeoff_energy - climb_energy
  let cruise_power := cruisePower cfg
  let flight_range := cfg.cruise_speed * energy_stored / cruise_power
  (flight_range,
    if verbose then
      [takeoff_energy / Wh_to_J, climb_energy / Wh_to_J, cruise_power / 1000]
    else [])

/-- The electric Cessna 208 configuration built by
`electricCessna208Analysis` (lines 38-61); attributes the script leaves at
their class defaults keep the simple_aircraft.py values. -/
def cessna : Aircraft where
  dry_mass := 2145
  battery_mass := 1000
  energy_density := 220 * Wh_to_J
  packing_factor := 0.8
  inaccessible_fraction := 0.08
  reserve_fraction := 0.2
  wingspan := 15.87
  wing_area := 25.96
  wing_efficiency := 0.8
  drag_coeff_parasitic := 0.034
  cruise_speed := 344 * (1 / 3.6)
  cruise_altitude := 3200
  climb_rate := 6.27
  engine_max_power := 503e3
  prop_efficiency := 0.85
  prop_diameter := 2.69
  battery_capacity := 0
  cruise_ceiling := 0
  extras := []

/-- The cessna configuration with the whole battery capacity marked
inaccessible: a physically admissible configuration whose usable energy is
zero, used to exercise the negative-remaining-energy path. -/
def cessnaDrained : Aircraft :=
  { cessna with inaccessible_fraction := 1 }

/-- The physical-validity invariants of the spec data model (masses, areas
and aero coefficients strictly positive, fractions within the unit interval,
cruise altitude within the atmosphere model). -/
def Valid (cfg : Aircraft) : Prop :=
  0 < cfg.dry_mass ∧ 0 < cfg.battery_mass ∧ 0 < cfg.energy_density ∧
  0 < cfg.packing_factor ∧ cfg.packing_factor ≤ 1 ∧
  0 ≤ cfg.inaccessible_fraction ∧ cfg.inaccessible_fraction ≤ 1 ∧
  0 ≤ cfg.reserve_fraction ∧ cfg.reserve_fraction ≤ 1 ∧
  0 < cfg.wingspan ∧ 0 < cfg.wing_area ∧
  0 < cfg.wing_efficiency ∧ cfg.wing_efficiency ≤ 1 ∧
  0 < cfg.drag_coeff_parasitic ∧ 0 < cfg.cruise_speed ∧
  0 ≤ cfg.cruise_altitude ∧ cfg.cruise_altitude ≤ 11000 ∧
  0 < cfg.climb_rate ∧ 0 < cfg.engine_max_power ∧
  0 < cfg.prop_efficiency ∧ cfg.prop_efficiency ≤ 1 ∧
  0 < cfg.prop_diameter

end FO

namespace RS
/- Embedding of src/Basic_Analyses/basic_range_sim.py (the older variant:
gravity 9.8066, battery energy read from `battery_capacity`, cruise altitude
recomputed by `optimalAltitude`, and a sweep driver that mutates the held
aircraft in place). -/

def gravity : ℝ := 9.8066
def R : ℝ := 287
def density_msl : ℝ := 1.225
def temp_msl : ℝ := 288.16

def temp_gradient : ℝ := (216.7 - temp_msl) / 11000

/-- Embedding of `airDensity` (basic_range_sim.py lines 103-112): identical structure to
the first-order variant; above 11 km it prints a warning and proceeds. -/
def airDensity (altitude : ℝ) : ℝ :=
  density_msl *
    ((altitude * temp_gradient + temp_msl) / temp_msl) ^
      (-(gravity / (temp_gradient * R) + 1))

/-- The observable outcome of calling the basic_range_sim `airDensity`:
every control path returns normally. -/
def airDensityE (altitude : ℝ) : Except DomainError ℝ :=
  Except.ok (airDensity altitude)

/-- Embedding of `dynamicPressure` (line 115). -/
def dynamicPressure (density velocity : ℝ) : ℝ :=
  0.5 * density * velocity ^ (2 : ℕ)

/-- Embedding of `optimalAltitude` (lines 119-135); its ceiling warning print does not
depend on any verbose flag and is dropped here. -/
def optimalAltitude (cfg : Aircraft) : ℝ :=
  let lift := cfg.total_mass * gravity
  let optimal_dynamic_pressure :=
    0.5 * Real.sqrt (4 * lift ^ (2 : ℕ) /
      (cfg.wing_area * cfg.drag_coeff_parasitic * Real.pi *
        cfg.wing_efficiency * cfg.wingspan ^ (2 : ℕ)))
  let density := 2 * optimal_dynamic_pressure / cfg.cruise_speed ^ (2 : ℕ)
  let temperature :=
    temp_msl * (density / density_msl) ^ (-1 / (gravity / (temp_gradient * R) + 1))
  (temperature - temp_msl) / temp_gradient

/-- Embedding of `inducedDrag` (lines 138-145). -/
def inducedDrag (dynamic_pressure : ℝ) (cfg : Aircraft) : ℝ :=
  let aspect_ratio := cfg.wingspan ^ (2 : ℕ) / cfg.wing_area
  let lift_coeff := cfg.total_mass * gravity / (dynamic_pressure * cfg.wing_area)
  lift_coeff ^ (2 : ℕ) / (Real.pi * aspect_ratio * cfg.wing_efficiency)

/-- Embedding of `takeoffSpeed` (lines 148-157). -/
def takeoffSpeed (cfg : Aircraft) : ℝ :=
  let angle_of_attack := 15 * (Real.pi / 180)
  let CL0 := 2 * Real.pi * angle_of_attack
  let aspect_ratio := cfg.wingspan ^ (2 : ℕ) / cfg.wing_area
  let lift_coefficient :=
    CL0 / (1 + CL0 / (Real.pi * cfg.wing_efficiency * aspect_ratio))
  Real.sqrt (cfg.total_mass * gravity /
    (0.5 * airDensity 1 * lift_coefficient * cfg.wing_area))

/-- Embedding of `takeoffEnergy` (lines 160-169). -/
def takeoffEnergy (takeoff_speed : ℝ) (cfg : Aircraft) : ℝ :=
  let density := airDensity 1
  let thrust :=
    (0.5 * density * Real.pi *
      (cfg.engine_max_power * cfg.prop_efficiency * cfg.prop_diameter) ^ (2 : ℕ))
      ^ ((1 : ℝ) / 3)
  let takeoff_time := takeoff_speed * cfg.total_mass / thrust
  takeoff_time * cfg.engine_max_power

/-- The integrand of `climbEnergy` (lines 179-187); here the cruise altitude
is an explicit argument. -/
def climbPower (cruise_altitude takeoff_speed : ℝ) (cfg : Aircraft)
    (time : ℝ) : ℝ :=
  let climb_time := cruise_altitude / cfg.climb_rate
  let speed := cfg.cruise_speed / climb_time * time + takeoff_speed
  let altitude := cfg.climb_rate * time
  let density := airDensity altitude
  let dynamic_pressure := dynamicPressure density speed
  let drag := (cfg.drag_coeff_parasitic + inducedDrag dynamic_pressure cfg) *
    cfg.wing_area * dynamic_pressure
  let thrust := drag + cfg.total_mass * gravity * cfg.climb_rate / speed
  thrust * speed

/-- Embedding of `climbEnergy` (lines 172-190). -/
def climbEnergy (quad : (ℝ → ℝ) → ℝ → ℝ → ℝ)
    (cruise_altitude takeoff_speed : ℝ) (cfg : Aircraft) : ℝ :=
  let climb_time := cruise_altitude / cfg.climb_rate
  quad (climbPower cruise_altitude takeoff_speed cfg) 0 climb_time

/-- Embedding of `cruisePower` (lines 193-201). -/
def cruisePower (cruise_altitude : ℝ) (cfg : Aircraft) : ℝ :=
  let density := airDensity cruise_altitude
  let dynamic_pressure := dynamicPressure density cfg.cruise_speed
  let drag := cfg.wing_area * dynamic_pressure *
    (inducedDrag dynamic_pressure cfg + cfg.drag_coeff_parasitic)
  drag * cfg.cruise_speed

/-- Embedding of `flightRange` (basic_range_sim.py lines 204-232).  The second component
lists the numeric payloads printed: the unconditional `print(flight_range)`
followed, when `verbose` is set, by the three diagnostic values. -/
def flightRange (quad : (ℝ → ℝ) → ℝ → ℝ → ℝ) (verbose : Bool)
    (cfg : Aircraft) : ℝ × List ℝ :=
  let takeoff_speed := takeoffSpeed cfg
  let takeoff_energy := takeoffEnergy takeoff_speed cfg
  let cruise_altitude := optimalAltitude cfg
  let climb_energy := climbEnergy quad cruise_altitude takeoff_speed cfg
  let energy_stored := cfg.battery_capacity * 3600 - takeoff_energy - climb_energy
  let cruise_power := cruisePower cruise_altitude cfg
  let flight_range := cfg.cruise_speed * energy_stored / cruise_power
  (flight_range,
    flight_range ::
      (if verbose then
        [takeoff_energy / 3600, climb_energy / 3600, cruise_power / 1000]
      else []))

/-- The loop of `RangeAnalysis.parametricStudy1D` (lines 28-41): `setattr`
acts on `self.aircraft` itself (no copy), so the mutated aircraft is
threaded through and returned; the `AttributeError` path returns `none`
(Python returns None). -/
def parametricStudy1DLoop (quad : (ℝ → ℝ) → ℝ → ℝ → ℝ) (verbose : Bool)
    (parameter : String) :
    Aircraft → List ℝ → Option (Aircraft × List ℝ)
  | aircraft, [] => some (aircraft, [])
  | aircraft, val :: rest =>
    match aircraft.setattr parameter val with
    | none => none
    | some aircraft1 =>
      match parametricStudy1DLoop quad verbose parameter aircraft1 rest with
      | none => none
      | some (aircraftF, outs) =>
        some (aircraftF, (flightRange quad verbose aircraft1).1 :: outs)

/-- Embedding of `RangeAnalysis.parametricStudy1D`: returns the final state of
`self.aircraft` along with the collected flight ranges. -/
def parametricStudy1D (quad : (ℝ → ℝ) → ℝ → ℝ → ℝ) (verbose : Bool)
    (aircraft : Aircraft) (parameter : String) (values : List ℝ) :
    Option (Aircraft × List ℝ) :=
  parametricStudy1DLoop quad verbose parameter aircraft values

end RS

/-- The 2-D numpy result array of the sweep driver, as a list of rows. -/
abbrev Grid : Type := List (List ℝ)

/-- Entry read `mat[j][i]` with numpy row index `j` and column index `i`. -/
def getEntry (mat : Grid) (j i : ℕ) : ℝ :=
  (List.getD mat j []).getD i 0

/-- Entry write `mat[j][i] = v`. -/
def setEntry (mat : Grid) (j i : ℕ) (v : ℝ) : Grid :=
  List.set mat j ((List.getD mat j []).set i v)

/-- Embedding of `np.zeros((m, n))`. -/
def zerosGrid (m n : ℕ) : Grid :=
  List.replicate m (List.replicate n (0 : ℝ))

namespace PS
/- Embedding of src/Basic_Analyses/parametric_study.py: the generic
ParametricAnalysis driver, evaluator-agnostic (the evaluator is a function
argument `f`).  The driver deep-copies `self.cfg` before each sweep, so the
held configuration is returned unchanged; the visualization step rescales
the caller-supplied value sequences in place, so the final state of those
sequences is part of the result. -/

/-- The loop of `_parametricStudy1D` (lines 63-71): the deep copy `cfg` is
threaded through `setattr`; each output is the evaluator at the current
copy.  `none` models the `AttributeError` path returning None. -/
def study1DLoop (f : Aircraft → ℝ) (parameter : String) :
    Aircraft → List ℝ → Option (Aircraft × List ℝ)
  | cfg, [] => some (cfg, [])
  | cfg, val :: rest =>
    match cfg.setattr parameter val with
    | none => none
    | some cfg1 =>
      match study1DLoop f parameter cfg1 rest with
      | none => none
      | some (cfgF, outs) => some (cfgF, f cfg1 :: outs)

/-- Embedding of `_parametricStudy1D` (lines 58-74) including the `_visualize1D` side
effect on the caller-supplied `values` (line 107: `values *= display_units[0]`,
an in-place numpy scaling).  Result: (outputs, final state of `values`,
final state of `self.cfg`). -/
def parametricStudy1D (f : Aircraft → ℝ) (selfCfg : Aircraft)
    (parameter : String) (values : List ℝ) (display_units : List ℝ) :
    Option (List ℝ × List ℝ × Aircraft) :=
  match study1DLoop f parameter selfCfg values with
  | none => none
  | some (_, outs) =>
    some (outs, values.map (fun v => v * display_units.getD 0 0), selfCfg)

/-- The inner loop of `_parametricStudy2D` (lines 90-96): for a fixed outer
index `i` it writes column `i` of the result array top to bottom, setting
`parameters[1]` on the shared copy before each evaluation. -/
def study2DInner (f : Aircraft → ℝ) (pb : String) :
    Aircraft → List ℝ → ℕ → ℕ → Grid → Option (Aircraft × Grid)
  | cfg, [], _, _, mat => some (cfg, mat)
  | cfg, valB :: rest, j, i, mat =>
    match cfg.setattr pb valB with
    | none => none
    | some cfg1 =>
      study2DInner f pb cfg1 rest (j + 1) i (setEntry mat j i (f cfg1))

/-- The outer loop of `_parametricStudy2D` (lines 83-96): iterates the first
parameter over `values[0]`, running the inner loop for each column. -/
def study2DOuter (f : Aircraft → ℝ) (pa pb : String) (vb : List ℝ) :
    Aircraft → List ℝ → ℕ → Grid → Option (Aircraft × Grid)
  | cfg, [], _, mat => some (cfg, mat)
  | cfg, valA :: rest, i, mat =>
    match cfg.setattr pa valA with
    | none => none
    | some cfg1 =>
      match study2DInner f pb cfg1 vb 0 i mat with
      | none => none
      | some (cfg2, mat1) => study2DOuter f pa pb vb cfg2 rest (i + 1) mat1

/-- Embedding of `_parametricStudy2D` (lines 76-99) including the `_visualize2D` side
effect on the caller-supplied value sequences (line 121: each `values[k]` is
replaced by its display-unit rescaling).  The array is allocated as
`np.zeros((len(values[1]), len(values[0])))`.  Result: (output grid, final
state of the two value sequences, final state of `self.cfg`). -/
def parametricStudy2D (f : Aircraft → ℝ) (selfCfg : Aircraft)
    (pa pb : String) (va vb : List ℝ) (display_units : List ℝ) :
    Option (Grid × List (List ℝ) × Aircraft) :=
  match study2DOuter f pa pb vb selfCfg va 0 (zerosGrid vb.length va.length) with
  | none => none
  | some (_, mat) =>
    some (mat,
      [va.map (fun v => v * display_units.getD 0 0),
       vb.map (fun v => v * display_units.getD 1 0)],
      selfCfg)

end PS

namespace OPT
/- Embedding of src/Optimization/opt_cruise.py.  The SUAVE mission
simulation is an external collaborator: the energy it reports spent over a
cruise of a given distance is the parameter `missionSpent`, and the total
range it reports is `missionRange` (cruise speed is fixed at 190 mph inside
the source).  The scipy SLSQP solver is the parameter `minimize`. -/

/-- The fields of the scipy result object that opt_cruise reads. -/
structure SolveResult where
  x : ℝ
  objVal : ℝ

/-- A bounded scalar solver taking objective, initial point, bounds,
inequality-constraint function and tolerance, standing for
`scipy.optimize.minimize(..., method=SLSQP)`. -/
def Solver : Type :=
  (ℝ → ℝ) → ℝ → (ℝ × ℝ) → (ℝ → ℝ) → ℝ → SolveResult

/-- Embedding of `bat_reserve` (lines 83-101): the remaining battery energy after flying
the cruise mission, the inequality-constraint function handed to the
solver. -/
def bat_reserve (missionSpent : ℝ → ℝ) (available_energy : ℝ)
    (cruise_distance : ℝ) : ℝ :=
  available_energy - missionSpent cruise_distance

/-- Embedding of `evaluate_cruise_mission` (lines 103-127): negated mission range (the
solver minimizes). -/
def evaluate_cruise_mission (missionRange : ℝ → ℝ) (cruise_distance : ℝ) : ℝ :=
  -(missionRange cruise_distance)

/-- The lower bound `40 * Units.kilometer`. -/
def x_lb : ℝ := 40 * 1000

/-- The upper bound `250 * Units.kilometer`. -/
def x_ub : ℝ := 250 * 1000

/-- The solver tolerance passed by `opt_cruise`. -/
def tolerance : ℝ := 1e-6

/-- Embedding of `opt_cruise` (lines 60-81): runs the solver on the negated mission range
subject to `bat_reserve >= 0` over `[x_lb, x_ub]` from initial point 70 km,
and returns `(sol.x[0], sol.fun)`. -/
def opt_cruise (minimize : Solver) (missionSpent missionRange : ℝ → ℝ)
    (available_energy : ℝ) : ℝ × ℝ :=
  let sol := minimize (evaluate_cruise_mission missionRange) (70 * 1000)
    (x_lb, x_ub) (bat_reserve missionSpent available_energy) tolerance
  (sol.x, sol.objVal)

end OPT

/-- A degenerate quadrature routine (identically zero), a concrete
instantiation of the external scipy integrator used to evaluate the model
at specific inputs. -/
def quadZero : (ℝ → ℝ) → ℝ → ℝ → ℝ := fun _ _ _ => 0

/-- A concrete evaluator reading one configuration field, used to exercise
the evaluator-agnostic sweep driver at specific inputs. -/
def batteryMassOf : Aircraft → ℝ := fun c => c.battery_mass

/-- A concrete solver instantiation that always returns the lower bound of
the supplied interval, used to exercise `opt_cruise` at specific inputs. -/
def OPT.solverLB : OPT.Solver :=
  fun _ _ bounds _ _ => { x := bounds.1, objVal := 0 }

/- ======================  Helper lemmas  ====================== -/

theorem setattr_known (c : Aircraft) (p : String) (v : ℝ)
    (hp : p ∈ knownFields) : c.setattr p v = some (updateField c p v) := by
  simp only [knownFields, List.mem_cons, List.mem_singleton,
    List.not_mem_nil, or_false] at hp
  rcases hp with h | h | h | h | h | h | h | h | h | h | h | h | h | h | h | h | h | h <;>
    subst h <;> rfl

theorem updateField_override (c : Aircraft) (p : String) (v w : ℝ)
    (hp : p ∈ knownFields) :
    updateField (updateField c p v) p w = updateField c p w := by
  simp only [knownFields, List.mem_cons, List.mem_singleton,
    List.not_mem_nil, or_false] at hp
  rcases hp with h | h | h | h | h | h | h | h | h | h | h | h | h | h | h | h | h | h <;>
    subst h <;> rfl

theorem updateField_comm (c : Aircraft) (p q : String) (v w : ℝ)
    (hp : p ∈ knownFields) (hq : q ∈ knownFields) (hpq : p ≠ q) :
    updateField (updateField c p v) q w = updateField (updateField c q w) p v := by
  simp only [knownFields, List.mem_cons, List.mem_singleton,
    List.not_mem_nil, or_false] at hp hq
  rcases hp with h | h | h | h | h | h | h | h | h | h | h | h | h | h | h | h | h | h <;>
    subst h <;>
  rcases hq with h | h | h | h | h | h | h | h | h | h | h | h | h | h | h | h | h | h <;>
    subst h <;>
  first
  | exact absurd rfl hpq
  | rfl

theorem updateField_unknown (c : Aircraft) (p : String) (v : ℝ)
    (hp : p ∉ knownFields) :
    updateField c p v = { c with extras := (p, v) :: c.extras } := by
  simp only [knownFields, List.mem_cons, List.mem_singleton,
    List.not_mem_nil, or_false, not_or] at hp
  obtain ⟨h1, h2, h3, h4, h5, h6, h7, h8, h9, h10, h11, h12, h13, h14, h15,
    h16, h17, h18⟩ := hp
  simp only [updateField, if_neg h1, if_neg h2, if_neg h3, if_neg h4,
    if_neg h5, if_neg h6, if_neg h7, if_neg h8, if_neg h9, if_neg h10,
    if_neg h11, if_neg h12, if_neg h13, if_neg h14, if_neg h15, if_neg h16,
    if_neg h17, if_neg h18]

theorem setattr_not_property (c : Aircraft) (p : String) (v : ℝ)
    (h1 : p ≠ "total_mass") (h2 : p ≠ "total_energy") :
    c.setattr p v = some (updateField c p v) := by
  simp [Aircraft.setattr, h1, h2]

theorem length_setEntry (mat : Grid) (j i : ℕ) (v : ℝ) :
    (setEntry mat j i v).length = mat.length := by
  simp [setEntry, Grid]

theorem rows_setEntry (mat : Grid) (j i : ℕ) (v : ℝ) (n : ℕ)
    (h : ∀ r ∈ mat, r.length = n) (hj : j < mat.length) :
    ∀ r ∈ setEntry mat j i v, r.length = n := by
  intro r hr
  rcases List.mem_or_eq_of_mem_set hr with h1 | h1
  · exact h r h1
  · subst h1
    rw [List.length_set, List.getD_eq_getElem _ _ hj]
    exact h _ (List.getElem_mem hj)

theorem getEntry_setEntry_self (mat : Grid) (j i : ℕ) (v : ℝ)
    (hj : j < mat.length) (hi : i < (List.getD mat j []).length) :
    getEntry (setEntry mat j i v) j i = v := by
  simp only [getEntry, setEntry, List.getD_eq_getElem?_getD] at hi ⊢
  rw [List.getElem?_set_self hj, Option.getD_some,
    List.getElem?_set_self hi, Option.getD_some]

theorem getEntry_setEntry_ne (mat : Grid) (j i j1 i1 : ℕ) (v : ℝ)
    (h : j1 ≠ j ∨ i1 ≠ i) :
    getEntry (setEntry mat j i v) j1 i1 = getEntry mat j1 i1 := by
  simp only [getEntry, setEntry, List.getD_eq_getElem?_getD]
  rcases h with h | h
  · rw [List.getElem?_set_ne (Ne.symm h)]
  · rcases eq_or_ne j1 j with rfl | hj
    · rcases Nat.lt_or_ge j1 mat.length with hlt | hge
      · rw [List.getElem?_set_self hlt, Option.getD_some,
          List.getElem?_set_ne (Ne.symm h)]
      · rw [List.set_eq_of_length_le hge]
    · rw [List.getElem?_set_ne (Ne.symm hj)]

theorem length_zerosGrid (m n : ℕ) : (zerosGrid m n).length = m := by
  simp [zerosGrid, Grid]

theorem rows_zerosGrid (m n : ℕ) : ∀ r ∈ zerosGrid m n, r.length = n := by
  intro r hr
  rw [List.eq_of_mem_replicate hr]
  simp

theorem study1DLoop_known (f : Aircraft → ℝ) (p : String)
    (hp : p ∈ knownFields) :
    ∀ (values : List ℝ) (cfg : Aircraft),
    PS.study1DLoop f p cfg values =
      some (values.foldl (fun c v => updateField c p v) cfg,
            values.map (fun v => f (updateField cfg p v))) := by
  intro values
  induction values with
  | nil => intro cfg; rfl
  | cons v rest ih =>
    intro cfg
    simp only [PS.study1DLoop, setattr_known _ _ _ hp, ih (updateField cfg p v),
      List.foldl_cons, List.map_cons]
    simp only [updateField_override _ _ _ _ hp]

theorem rsLoop_fst (quad : (ℝ → ℝ) → ℝ → ℝ → ℝ) (vb : Bool) (p : String)
    (h1 : p ≠ "total_mass") (h2 : p ≠ "total_energy") :
    ∀ (values : List ℝ) (cfg : Aircraft),
    (RS.parametricStudy1DLoop quad vb p cfg values).map Prod.fst =
      some (values.foldl (fun c v => updateField c p v) cfg) := by
  intro values
  induction values with
  | nil => intro cfg; rfl
  | cons v rest ih =>
    intro cfg
    simp only [RS.parametricStudy1DLoop, setattr_not_property _ _ _ h1 h2]
    have h3 := ih (updateField cfg p v)
    rcases hres : RS.parametricStudy1DLoop quad vb p (updateField cfg p v) rest with
      _ | ⟨cfgF, outs⟩
    · rw [hres] at h3
      simp at h3
    · rw [hres] at h3
      simp at h3
      simp [List.foldl_cons, h3]

theorem study1DLoop_unknown (f : Aircraft → ℝ) (p : String)
    (hp : p ∉ knownFields) (h1 : p ≠ "total_mass") (h2 : p ≠ "total_energy")
    (hf : ∀ (c : Aircraft) (n : String) (v : ℝ),
      f { c with extras := (n, v) :: c.extras } = f c) :
    ∀ (values : List ℝ) (cfg : Aircraft),
    (PS.study1DLoop f p cfg values).map Prod.snd =
      some (values.map (fun _ => f cfg)) := by
  intro values
  induction values with
  | nil => intro cfg; rfl
  | cons v rest ih =>
    intro cfg
    simp only [PS.study1DLoop, setattr_not_property _ _ _ h1 h2,
      updateField_unknown _ _ _ hp]
    rcases hres : PS.study1DLoop f p { cfg with extras := (p, v) :: cfg.extras } rest with
      _ | ⟨cfgF, outs⟩
    · have := ih { cfg with extras := (p, v) :: cfg.extras }
      rw [hres] at this
      simp at this
    · have := ih { cfg with extras := (p, v) :: cfg.extras }
      rw [hres] at this
      simp at this
      rw [hf cfg p v] at this
      simp [this, hf cfg p v]

theorem study2DInner_spec (f : Aircraft → ℝ) (pb : String)
    (hpb : pb ∈ knownFields) (n : ℕ) :
    ∀ (bs : List ℝ) (cfg : Aircraft) (j i : ℕ) (mat : Grid),
    j + bs.length ≤ mat.length → (∀ r ∈ mat, r.length = n) → i < n →
    ∃ cfgF matF,
      PS.study2DInner f pb cfg bs j i mat = some (cfgF, matF)
      ∧ matF.length = mat.length
      ∧ (∀ r ∈ matF, r.length = n)
      ∧ (∀ j1 i1, (i1 ≠ i ∨ j1 < j) → getEntry matF j1 i1 = getEntry mat j1 i1)
      ∧ (∀ k, k < bs.length →
          getEntry matF (j + k) i = f (updateField cfg pb (bs.getD k 0)))
      ∧ (∀ w, updateField cfgF pb w = updateField cfg pb w) := by
  intro bs
  induction bs with
  | nil =>
    intro cfg j i mat _ hrows _
    exact ⟨cfg, mat, rfl, rfl, hrows, fun _ _ _ => rfl, fun k hk => absurd hk (by simp),
      fun _ => rfl⟩
  | cons b rest ih =>
    intro cfg j i mat hlen hrows hi
    have hj : j < mat.length := by
      have := hlen
      simp only [List.length_cons] at this
      omega
    have hrowj : i < (List.getD mat j []).length := by
      rw [List.getD_eq_getElem _ _ hj]
      rw [hrows _ (List.getElem_mem hj)]
      exact hi
    set cfg1 := updateField cfg pb b with hcfg1
    set mat1 := setEntry mat j i (f cfg1) with hmat1
    have hlen1 : mat1.length = mat.length := length_setEntry mat j i (f cfg1)
    have hrows1 : ∀ r ∈ mat1, r.length = n := rows_setEntry mat j i (f cfg1) n hrows hj
    obtain ⟨cfgF, matF, heq, hlenF, hrowsF, huntouched, hwritten, hinv⟩ :=
      ih cfg1 (j + 1) i mat1
        (by rw [hlen1]; simp only [List.length_cons] at hlen; omega)
        hrows1 hi
    refine ⟨cfgF, matF, ?_, ?_, hrowsF, ?_, ?_, ?_⟩
    · simp only [PS.study2DInner, setattr_known _ _ _ hpb, ← hcfg1, ← hmat1]
      exact heq
    · rw [hlenF, hlen1]
    · intro j1 i1 hcond
      have h1 : getEntry matF j1 i1 = getEntry mat1 j1 i1 := by
        apply huntouched
        rcases hcond with h | h
        · exact Or.inl h
        · exact Or.inr (Nat.lt_succ_of_lt h)
      rw [h1, hmat1]
      apply getEntry_setEntry_ne
      rcases hcond with h | h
      · exact Or.inr h
      · exact Or.inl (Nat.ne_of_lt h)
    · intro k hk
      rcases k with _ | k1
      · have h1 : getEntry matF j i = getEntry mat1 j i := by
          apply huntouched
          exact Or.inr (Nat.lt_succ_self j)
        rw [Nat.add_zero, h1, hmat1,
          getEntry_setEntry_self mat j i (f cfg1) hj hrowj]
        rfl
      · have h1 := hwritten k1 (by simpa using hk)
        have h2 : j + (k1 + 1) = j + 1 + k1 := by omega
        rw [h2, h1, hcfg1, updateField_override _ _ _ _ hpb]
        rfl
    · intro w
      rw [hinv w, hcfg1, updateField_override _ _ _ _ hpb]

theorem study2DOuter_spec (f : Aircraft → ℝ) (pa pb : String)
    (hpa : pa ∈ knownFields) (hpb : pb ∈ knownFields) (hab : pa ≠ pb)
    (vb : List ℝ) (n : ℕ) :
    ∀ (as1 : List ℝ) (cfg : Aircraft) (i : ℕ) (mat : Grid),
    vb.length ≤ mat.length → (∀ r ∈ mat, r.length = n) →
    i + as1.length ≤ n →
    ∃ cfgF matF,
      PS.study2DOuter f pa pb vb cfg as1 i mat = some (cfgF, matF)
      ∧ matF.length = mat.length
      ∧ (∀ r ∈ matF, r.length = n)
      ∧ (∀ j1 i1, i1 < i → getEntry matF j1 i1 = getEntry mat j1 i1)
      ∧ (∀ k, k < as1.length → ∀ j, j < vb.length →
          getEntry matF j (i + k) =
            f (updateField (updateField cfg pa (as1.getD k 0)) pb (vb.getD j 0)))
      ∧ (∀ w1 w2, updateField (updateField cfgF pa w1) pb w2 =
          updateField (updateField cfg pa w1) pb w2) := by
  intro as1
  induction as1 with
  | nil =>
    intro cfg i mat _ hrows _
    exact ⟨cfg, mat, rfl, rfl, hrows, fun _ _ _ => rfl,
      fun k hk => absurd hk (by simp), fun _ _ => rfl⟩
  | cons a rest ih =>
    intro cfg i mat hlen hrows hbound
    have hi : i < n := by
      simp only [List.length_cons] at hbound
      omega
    set cfg1 := updateField cfg pa a with hcfg1
    obtain ⟨cfg2, mat1, heqI, hlen1, hrows1, huntouchedI, hwrittenI, hinvI⟩ :=
      study2DInner_spec f pb hpb n vb cfg1 0 i mat (by simpa using hlen) hrows hi
    obtain ⟨cfgF, matF, heqO, hlenF, hrowsF, huntouchedO, hwrittenO, hinvO⟩ :=
      ih cfg2 (i + 1) mat1 (by rw [hlen1]; exact hlen) hrows1
        (by simp only [List.length_cons] at hbound; omega)
    have hstep : ∀ w1 w2, updateField (updateField cfg2 pa w1) pb w2 =
        updateField (updateField cfg pa w1) pb w2 := by
      intro w1 w2
      rw [updateField_comm _ _ _ _ _ hpa hpb hab, hinvI,
        ← updateField_comm _ _ _ _ _ hpa hpb hab, hcfg1,
        updateField_override _ _ _ _ hpa]
    refine ⟨cfgF, matF, ?_, ?_, hrowsF, ?_, ?_, ?_⟩
    · simp only [PS.study2DOuter, setattr_known _ _ _ hpa, ← hcfg1, heqI]
      exact heqO
    · rw [hlenF, hlen1]
    · intro j1 i1 hi1
      rw [huntouchedO j1 i1 (Nat.lt_succ_of_lt hi1),
        huntouchedI j1 i1 (Or.inl (Nat.ne_of_lt hi1))]
    · intro k hk j hj
      rcases k with _ | k1
      · rw [Nat.add_zero,
          huntouchedO j i (Nat.lt_succ_self i)]
        have h1 := hwrittenI j (by simpa using hj)
        simp only [Nat.zero_add] at h1
        rw [h1]
        rfl
      · have h1 := hwrittenO k1 (by simpa using hk) j hj
        have h2 : i + (k1 + 1) = i + 1 + k1 := by omega
        rw [h2, h1, hstep]
        rfl
    · intro w1 w2
      rw [hinvO w1 w2, hstep]

theorem FO.temp_gradient_neg : FO.temp_gradient < 0 := by
  norm_num [FO.temp_gradient, FO.temp_msl]

theorem FO.exponent_pos : 0 < -(FO.gravity / (FO.temp_gradient * FO.R) + 1) := by
  norm_num [FO.temp_gradient, FO.temp_msl, FO.gravity, FO.R]

theorem FO.temp_msl_pos : 0 < FO.temp_msl := by
  norm_num [FO.temp_msl]

/-- The linearly interpolated temperature stays positive everywhere below
44 km, far past the 11 km model ceiling. -/
theorem FO.temp_pos (h : ℝ) (hh : h ≤ 44000) :
    0 < h * FO.temp_gradient + FO.temp_msl := by
  have hg := FO.temp_gradient_neg
  have h1 : 44000 * FO.temp_gradient ≤ h * FO.temp_gradient := by nlinarith
  have h2 : (0 : ℝ) < 44000 * FO.temp_gradient + FO.temp_msl := by
    norm_num [FO.temp_gradient, FO.temp_msl]
  linarith

theorem FO.airDensity_pos (h : ℝ) (hh : h ≤ 44000) : 0 < FO.airDensity h := by
  unfold FO.airDensity
  refine mul_pos (by norm_num [FO.density_msl]) ?_
  exact Real.rpow_pos_of_pos (div_pos (FO.temp_pos h hh) FO.temp_msl_pos) _

theorem FO.takeoffSpeed_pos (cfg : Aircraft) (hv : FO.Valid cfg) :
    0 < FO.takeoffSpeed cfg := by
  obtain ⟨h1, h2, h3, h4, h5, h6, h7, h8, h9, h10, h11, h12, h13, h14, h15,
    h16, h17, h18, h19, h20, h21, h22⟩ := hv
  have hmass : 0 < cfg.total_mass := by
    unfold Aircraft.total_mass; linarith
  have hdens : 0 < FO.airDensity 1 := FO.airDensity_pos 1 (by norm_num)
  unfold FO.takeoffSpeed
  apply Real.sqrt_pos.mpr
  have hpi := Real.pi_pos
  have hAR : 0 < cfg.wingspan ^ (2 : ℕ) / cfg.wing_area :=
    div_pos (pow_pos h10 2) h11
  have hCL0 : 0 < 2 * Real.pi * (15 * (Real.pi / 180)) := by positivity
  have hCL : 0 < 2 * Real.pi * (15 * (Real.pi / 180)) /
      (1 + 2 * Real.pi * (15 * (Real.pi / 180)) /
        (Real.pi * cfg.wing_efficiency * (cfg.wingspan ^ (2 : ℕ) / cfg.wing_area))) := by
    apply div_pos hCL0
    have : 0 < Real.pi * cfg.wing_efficiency * (cfg.wingspan ^ (2 : ℕ) / cfg.wing_area) := by
      positivity
    positivity
  apply div_pos (mul_pos hmass (by norm_num [FO.gravity]))
  positivity

theorem FO.takeoffEnergy_pos (cfg : Aircraft) (hv : FO.Valid cfg) :
    0 < FO.takeoffEnergyOf cfg := by
  obtain ⟨h1, h2, h3, h4, h5, h6, h7, h8, h9, h10, h11, h12, h13, h14, h15,
    h16, h17, h18, h19, h20, h21, h22⟩ := hv
  have hmass : 0 < cfg.total_mass := by
    unfold Aircraft.total_mass; linarith
  have hdens : 0 < FO.airDensity 1 := FO.airDensity_pos 1 (by norm_num)
  have hspeed := FO.takeoffSpeed_pos cfg
    ⟨h1, h2, h3, h4, h5, h6, h7, h8, h9, h10, h11, h12, h13, h14, h15, h16,
     h17, h18, h19, h20, h21, h22⟩
  unfold FO.takeoffEnergyOf FO.takeoffEnergy
  have hPED : 0 < cfg.engine_max_power * cfg.prop_efficiency * cfg.prop_diameter := by
    positivity
  have hthrust : 0 < (0.5 * FO.airDensity 1 * Real.pi *
      (cfg.engine_max_power * cfg.prop_efficiency * cfg.prop_diameter) ^ (2 : ℕ))
        ^ ((1 : ℝ) / 3) := by
    apply Real.rpow_pos_of_pos
    positivity
  positivity

theorem FO.cruisePower_pos (cfg : Aircraft) (hv : FO.Valid cfg) :
    0 < FO.cruisePower cfg := by
  obtain ⟨h1, h2, h3, h4, h5, h6, h7, h8, h9, h10, h11, h12, h13, h14, h15,
    h16, h17, h18, h19, h20, h21, h22⟩ := hv
  have hdens : 0 < FO.airDensity cfg.cruise_altitude :=
    FO.airDensity_pos cfg.cruise_altitude (by linarith)
  unfold FO.cruisePower FO.dynamicPressure
  have hq : 0 < 0.5 * FO.airDensity cfg.cruise_altitude * cfg.cruise_speed ^ (2 : ℕ) := by
    positivity
  have hCdi : 0 ≤ FO.inducedDrag
      (0.5 * FO.airDensity cfg.cruise_altitude * cfg.cruise_speed ^ (2 : ℕ)) cfg := by
    unfold FO.inducedDrag
    have hden : 0 < Real.pi * (cfg.wingspan ^ (2 : ℕ) / cfg.wing_area) *
        cfg.wing_efficiency := by positivity
    positivity
  have hsum : 0 < FO.inducedDrag
      (0.5 * FO.airDensity cfg.cruise_altitude * cfg.cruise_speed ^ (2 : ℕ)) cfg +
        cfg.drag_coeff_parasitic := by linarith
  positivity

/- ======================  Claim theorems  ====================== -/

/-- C6.  For altitudes in [0, 11000) the air density computed by
`airDensity` is strictly decreasing, `airDensity 0` equals `density_msl`
exactly, and the density is the power law of the linearly interpolated
temperature, a pure function of altitude and the environment constants. -/
theorem c6_atmosphere_monotone :
    (∀ h1 h2 : ℝ, 0 ≤ h1 → h1 < h2 → h2 < 11000 →
      FO.airDensity h2 < FO.airDensity h1)
    ∧ FO.airDensity 0 = FO.density_msl
    ∧ (∀ h : ℝ, FO.airDensity h =
        FO.density_msl * ((h * FO.temp_gradient + FO.temp_msl) / FO.temp_msl) ^
          (-(FO.gravity / (FO.temp_gradient * FO.R) + 1))) := by
  refine ⟨?_, ?_, fun h => rfl⟩
  · intro h1 h2 hh1 h12 h2lt
    have hg := FO.temp_gradient_neg
    have hT2 : 0 < h2 * FO.temp_gradient + FO.temp_msl :=
      FO.temp_pos h2 (by linarith)
    have hT12 : h2 * FO.temp_gradient + FO.temp_msl <
        h1 * FO.temp_gradient + FO.temp_msl := by nlinarith
    unfold FO.airDensity
    refine mul_lt_mul_of_pos_left ?_ (by norm_num [FO.density_msl])
    exact Real.rpow_lt_rpow (le_of_lt (div_pos hT2 FO.temp_msl_pos))
      ((div_lt_div_iff_of_pos_right FO.temp_msl_pos).mpr hT12) FO.exponent_pos
  · unfold FO.airDensity
    rw [zero_mul, zero_add, div_self (ne_of_gt FO.temp_msl_pos),
      Real.one_rpow, mul_one]

/-- C6 witness: monotonicity applied at the concrete pair 0 < 1000. -/
theorem c6_witness : FO.airDensity 1000 < FO.airDensity 0 :=
  c6_atmosphere_monotone.1 0 1000 le_rfl (by norm_num) (by norm_num)

/-- C3.  For every configuration (and any quadrature routine and verbose
setting), the range returned by `flightRange` equals
cruise_speed * remaining_energy / cruise_power, with remaining_energy =
battery_mass * energy_density * packing_factor * (1 - inaccessible_fraction)
* (1 - reserve_fraction) - takeoff_energy - climb_energy. -/
theorem c3_range_formula (quad : (ℝ → ℝ) → ℝ → ℝ → ℝ) (verbose : Bool)
    (cfg : Aircraft) :
    (FO.flightRange quad verbose cfg).1 =
      cfg.cruise_speed *
        (cfg.battery_mass * cfg.energy_density * cfg.packing_factor *
          (1 - cfg.inaccessible_fraction) * (1 - cfg.reserve_fraction) -
          FO.takeoffEnergyOf cfg - FO.climbEnergyOf quad cfg) /
        FO.cruisePower cfg := rfl

/-- C9.  The numeric result of both range evaluators is identical for any
two settings of the verbose flag: verbosity only adds printed diagnostics
(two-run noninterference over the verbose input). -/
theorem c9_verbose_noninterference (quad : (ℝ → ℝ) → ℝ → ℝ → ℝ)
    (cfg : Aircraft) (v1 v2 : Bool) :
    (FO.flightRange quad v1 cfg).1 = (FO.flightRange quad v2 cfg).1 ∧
    (RS.flightRange quad v1 cfg).1 = (RS.flightRange quad v2 cfg).1 :=
  ⟨rfl, rfl⟩

/-- C1 counterexample: at altitude 12000 m the source `airDensity` does not
fail with DomainError as the claim states — it returns normally with the
extrapolated power-law density (a positive value), merely printing a
warning; its outcome disagrees with the spec-modelled query that raises. -/
theorem c1_counterexample :
    (11000 : ℝ) < 12000
    ∧ FO.airDensityE 12000 ≠ FO.airDensitySpec 12000
    ∧ FO.airDensityE 12000 = Except.ok (FO.airDensity 12000)
    ∧ 0 < FO.airDensity 12000
    ∧ FO.airDensityWarns 12000 := by
  refine ⟨by norm_num, ?_, rfl, FO.airDensity_pos 12000 (by norm_num),
    by norm_num [FO.airDensityWarns]⟩
  unfold FO.airDensityE FO.airDensitySpec
  rw [if_pos (by norm_num : (11000 : ℝ) < 12000)]
  simp

/-- C1 amended: the atmosphere queries of both evaluator variants never
raise — for every altitude, including altitudes above the 11 km ceiling and
configurations with non-positive masses or areas, they return the
(possibly extrapolated) power-law density, and exceeding the ceiling only
triggers a console warning. -/
theorem c1_amended_no_raise (h : ℝ) :
    FO.airDensityE h = Except.ok (FO.airDensity h)
    ∧ RS.airDensityE h = Except.ok (RS.airDensity h)
    ∧ (FO.airDensityWarns h ↔ 11000 < h) :=
  ⟨rfl, rfl, Iff.rfl⟩

/-- C7.  For every valid configuration whose remaining energy (usable
battery energy minus takeoff and climb energy) is negative, the evaluator
returns a range ≤ 0; no exception is raised (the function is total) and the
division is by the strictly positive cruise power, so no NaN can arise. -/
theorem c7_negative_energy_range (quad : (ℝ → ℝ) → ℝ → ℝ → ℝ)
    (verbose : Bool) (cfg : Aircraft) (hv : FO.Valid cfg)
    (hneg : FO.energyRemaining quad cfg < 0) :
    (FO.flightRange quad verbose cfg).1 ≤ 0 ∧ 0 < FO.cruisePower cfg := by
  have hpow := FO.cruisePower_pos cfg hv
  have hspeed : 0 < cfg.cruise_speed := hv.2.2.2.2.2.2.2.2.2.2.2.2.2.2.1
  have heq : (FO.flightRange quad verbose cfg).1 =
      cfg.cruise_speed * FO.energyRemaining quad cfg / FO.cruisePower cfg := rfl
  rw [heq]
  exact ⟨le_of_lt (div_neg_of_neg_of_pos
    (mul_neg_of_pos_of_neg hspeed hneg) hpow), hpow⟩

/-- C7 witness: the cessna configuration with all capacity inaccessible is
valid, has negative remaining energy under the zero quadrature, and the
evaluator indeed returns a non-positive range. -/
theorem c7_witness :
    FO.Valid FO.cessnaDrained
    ∧ FO.energyRemaining quadZero FO.cessnaDrained < 0
    ∧ (FO.flightRange quadZero false FO.cessnaDrained).1 ≤ 0 := by
  have hval : FO.Valid FO.cessnaDrained := by
    norm_num [FO.Valid, FO.cessnaDrained, FO.cessna, FO.Wh_to_J]
  have hTO := FO.takeoffEnergy_pos FO.cessnaDrained hval
  have hrem : FO.energyRemaining quadZero FO.cessnaDrained =
      -FO.takeoffEnergyOf FO.cessnaDrained := by
    unfold FO.energyRemaining FO.climbEnergyOf FO.climbEnergy quadZero
    norm_num [FO.cessnaDrained, Aircraft.total_energy]
  have hneg : FO.energyRemaining quadZero FO.cessnaDrained < 0 := by
    rw [hrem]; linarith
  exact ⟨hval, hneg,
    (c7_negative_energy_range quadZero false FO.cessnaDrained hval hneg).1⟩

/-- C2 counterexample: sweeping the unrecognized parameter name "bogus"
does not fail — `setattr` silently creates a new attribute on the copy and
the sweep returns its outputs (here the unchanged battery mass of the base
configuration), contradicting the claimed immediate ConfigurationError. -/
theorem c2_counterexample :
    "bogus" ∉ knownFields
    ∧ (PS.parametricStudy1D batteryMassOf FO.cessna "bogus" [1, 2] [1, 1]).map
        (fun r => r.1) = some [1000, 1000] := by
  refine ⟨by decide, ?_⟩
  simp [PS.parametricStudy1D, PS.study1DLoop, Aircraft.setattr, updateField,
    batteryMassOf, FO.cessna]

/-- C2 amended: a sweep whose parameter name is not a recognized field (and
not a read-only property) raises nothing: `setattr` silently creates a new
attribute on the deep copy, every evaluation sees the recognized fields of
the base configuration unchanged, and the N outputs are returned.  Only a
name bound to a read-only property (`total_mass`, `total_energy`) hits the
error path, which prints a message and returns None instead of raising. -/
theorem c2_amended_silent_attribute :
    (∀ (f : Aircraft → ℝ) (cfg : Aircraft) (p : String) (values du : List ℝ),
      p ∉ knownFields → p ≠ "total_mass" → p ≠ "total_energy" →
      (∀ (c : Aircraft) (n : String) (v : ℝ),
        f { c with extras := (n, v) :: c.extras } = f c) →
      (PS.parametricStudy1D f cfg p values du).map (fun r => r.1) =
        some (values.map (fun _ => f cfg)))
    ∧ (∀ (f : Aircraft → ℝ) (cfg : Aircraft) (v : ℝ) (rest du : List ℝ),
        PS.parametricStudy1D f cfg "total_mass" (v :: rest) du = none) := by
  constructor
  · intro f cfg p values du hp h1 h2 hf
    have h := study1DLoop_unknown f p hp h1 h2 hf values cfg
    rcases hres : PS.study1DLoop f p cfg values with _ | ⟨cfgF, outs⟩
    · rw [hres] at h
      simp at h
    · rw [hres] at h
      simp at h
      simp [PS.parametricStudy1D, hres, h]
  · intro f cfg v rest du
    simp [PS.parametricStudy1D, PS.study1DLoop, Aircraft.setattr]

/-- C2 witness: the amended claim applied at the unrecognized name "bogus"
(sweep completes, outputs are the base evaluation) and at the read-only
property name "total_mass" (error path, None). -/
theorem c2_witness :
    (PS.parametricStudy1D batteryMassOf FO.cessna "bogus" [5, 7] [1, 1]).map
        (fun r => r.1) = some ([5, 7].map (fun _ => batteryMassOf FO.cessna))
    ∧ PS.parametricStudy1D batteryMassOf FO.cessna "total_mass" [1] [1, 1] = none :=
  ⟨c2_amended_silent_attribute.1 batteryMassOf FO.cessna "bogus" [5, 7] [1, 1]
      (by decide) (by decide) (by decide) (fun c n v => rfl),
   c2_amended_silent_attribute.2 batteryMassOf FO.cessna 1 [] [1, 1]⟩

/-- C4.  Sweep shape: a 1-D sweep over N values returns the N evaluator
outputs in input order, each at the base configuration with the parameter
set to the corresponding value; a 2-D sweep over (va, vb) returns a grid of
len(vb) rows and len(va) columns in which the entry at row j, column i is
the evaluator output with the first parameter set to va[i] and the second
to vb[j] (the first listed axis is the column axis). -/
theorem c4_sweep_shape (f : Aircraft → ℝ) (cfg : Aircraft) (pa pb : String)
    (va vb du : List ℝ) (hpa : pa ∈ knownFields) (hpb : pb ∈ knownFields)
    (hab : pa ≠ pb) :
    ((PS.parametricStudy1D f cfg pa va du).map (fun r => r.1) =
      some (va.map (fun v => f (updateField cfg pa v))))
    ∧ ((PS.parametricStudy2D f cfg pa pb va vb du).map (fun r => r.1.length) =
        some vb.length)
    ∧ (∀ j, j < vb.length →
        (PS.parametricStudy2D f cfg pa pb va vb du).map
          (fun r => (List.getD r.1 j []).length) = some va.length)
    ∧ (∀ i j, i < va.length → j < vb.length →
        (PS.parametricStudy2D f cfg pa pb va vb du).map
          (fun r => getEntry r.1 j i) =
          some (f (updateField (updateField cfg pa (va.getD i 0))
            pb (vb.getD j 0)))) := by
  obtain ⟨cfgF, matF, heq, hlenF, hrowsF, _, hwritten, _⟩ :=
    study2DOuter_spec f pa pb hpa hpb hab vb va.length va cfg 0
      (zerosGrid vb.length va.length)
      (by rw [length_zerosGrid])
      (rows_zerosGrid vb.length va.length)
      (by simp)
  have hgrid : PS.parametricStudy2D f cfg pa pb va vb du =
      some (matF,
        [va.map (fun v => v * du.getD 0 0), vb.map (fun v => v * du.getD 1 0)],
        cfg) := by
    simp [PS.parametricStudy2D, heq]
  refine ⟨?_, ?_, ?_, ?_⟩
  · simp [PS.parametricStudy1D, study1DLoop_known f pa hpa va cfg]
  · rw [hgrid]
    simp only [Option.map_some', Option.some.injEq]
    rw [hlenF, length_zerosGrid]
  · intro j hj
    rw [hgrid]
    have hjlen : j < matF.length := by
      rw [hlenF, length_zerosGrid]; exact hj
    simp only [Option.map_some', Option.some.injEq]
    rw [List.getD_eq_getElem _ _ hjlen]
    exact hrowsF _ (List.getElem_mem hjlen)
  · intro i j hi hj
    rw [hgrid]
    have h := hwritten i hi j hj
    simp only [Nat.zero_add] at h
    simp only [Option.map_some', Option.some.injEq]
    exact h

/-- C4 witness: the shape theorem applied to a concrete 2 x 1 sweep of
battery mass against dry mass. -/
theorem c4_witness :
    (PS.parametricStudy2D batteryMassOf FO.cessna "battery_mass" "dry_mass"
      [1, 2] [5] [1, 1, 1]).map (fun r => r.1.length) = some 1
    ∧ (PS.parametricStudy2D batteryMassOf FO.cessna "battery_mass" "dry_mass"
      [1, 2] [5] [1, 1, 1]).map (fun r => getEntry r.1 0 1) = some 2 := by
  have h := c4_sweep_shape batteryMassOf FO.cessna "battery_mass" "dry_mass"
    [1, 2] [5] [1, 1, 1] (by decide) (by decide) (by decide)
  refine ⟨h.2.1, ?_⟩
  have h2 := h.2.2.2 1 0 (by norm_num) (by norm_num)
  rw [h2]
  simp [batteryMassOf, updateField]

/-- C5 counterexample: `RangeAnalysis.parametricStudy1D` of basic_range_sim
mutates the held aircraft in place — after sweeping battery_mass over
[1200, 1500] the battery_mass of the base object is 1500, not its original
1000, contradicting the claim that the base configuration is unchanged
after any sweep call. -/
theorem c5_counterexample :
    (RS.parametricStudy1D quadZero false FO.cessna "battery_mass"
        [1200, 1500]).map (fun r => r.1.battery_mass) = some 1500
    ∧ FO.cessna.battery_mass = 1000
    ∧ (1500 : ℝ) ≠ 1000 := by
  refine ⟨?_, by norm_num [FO.cessna], by norm_num⟩
  have h := rsLoop_fst quadZero false "battery_mass" (by decide) (by decide)
    [1200, 1500] FO.cessna
  rcases hres : RS.parametricStudy1DLoop quadZero false "battery_mass"
      FO.cessna [1200, 1500] with _ | ⟨cfgF, outs⟩
  · rw [hres] at h
    simp at h
  · rw [hres] at h
    simp at h
    simp only [RS.parametricStudy1D, hres, Option.map_some]
    rw [h]
    simp [updateField]

/-- C5 amended: the ParametricAnalysis driver (parametric_study.py)
deep-copies `self.cfg`, so its held configuration is returned unchanged by
every 1-D and 2-D sweep; but the RangeAnalysis driver (basic_range_sim.py)
mutates the held aircraft in place: a successful sweep leaves the swept
field holding the last value, i.e. the aircraft is the fold of the field
updates over the value list. -/
theorem c5_amended_copy_vs_inplace :
    (∀ (f : Aircraft → ℝ) (cfg : Aircraft) (p : String) (values du : List ℝ),
      (PS.parametricStudy1D f cfg p values du).map (fun r => r.2.2) =
        (PS.parametricStudy1D f cfg p values du).map (fun _ => cfg))
    ∧ (∀ (f : Aircraft → ℝ) (cfg : Aircraft) (pa pb : String)
        (va vb du : List ℝ),
      (PS.parametricStudy2D f cfg pa pb va vb du).map (fun r => r.2.2) =
        (PS.parametricStudy2D f cfg pa pb va vb du).map (fun _ => cfg))
    ∧ (∀ (quad : (ℝ → ℝ) → ℝ → ℝ → ℝ) (vb : Bool) (a : Aircraft)
        (p : String) (values : List ℝ),
      p ≠ "total_mass" → p ≠ "total_energy" →
      (RS.parametricStudy1D quad vb a p values).map Prod.fst =
        some (values.foldl (fun c v => updateField c p v) a)) := by
  refine ⟨?_, ?_, ?_⟩
  · intro f cfg p values du
    unfold PS.parametricStudy1D
    rcases PS.study1DLoop f p cfg values with _ | ⟨cfgF, outs⟩ <;> rfl
  · intro f cfg pa pb va vb du
    unfold PS.parametricStudy2D
    rcases PS.study2DOuter f pa pb vb cfg va 0
      (zerosGrid vb.length va.length) with _ | ⟨cfgF, mat⟩ <;> rfl
  · intro quad vb a p values h1 h2
    exact rsLoop_fst quad vb p h1 h2 values a

/-- C5 witness: the amended claim applied concretely — the ParametricAnalysis
self configuration survives a sweep unchanged, while the RangeAnalysis
aircraft ends up with the swept field overwritten. -/
theorem c5_witness :
    (PS.parametricStudy1D batteryMassOf FO.cessna "battery_mass" [7] [1, 1]).map
      (fun r => r.2.2) =
      (PS.parametricStudy1D batteryMassOf FO.cessna "battery_mass" [7] [1, 1]).map
        (fun _ => FO.cessna)
    ∧ (RS.parametricStudy1D quadZero false FO.cessna "battery_mass" [1500]).map
        Prod.fst = some (updateField FO.cessna "battery_mass" 1500) := by
  refine ⟨c5_amended_copy_vs_inplace.1 batteryMassOf FO.cessna "battery_mass"
    [7] [1, 1], ?_⟩
  have h := c5_amended_copy_vs_inplace.2.2 quadZero false FO.cessna
    "battery_mass" [1500] (by decide) (by decide)
  simpa using h

/-- C10 counterexample: with display unit 2 (different from 1) but an
all-zero value sequence, the values of the caller are elementwise multiplied in
place yet still hold exactly the originally supplied values afterwards, so
the conclusion of the claim that the arrays no longer hold the original values
fails. -/
theorem c10_counterexample :
    (2 : ℝ) ≠ 1
    ∧ (PS.parametricStudy1D batteryMassOf FO.cessna "battery_mass" [0] [2, 1]).map
        (fun r => r.2.1) = some [0] := by
  refine ⟨by norm_num, ?_⟩
  simp [PS.parametricStudy1D, PS.study1DLoop, Aircraft.setattr, updateField]

/-- C10 amended: every returning sweep call rescales the caller-supplied
value sequences in place — the 1-D path multiplies each element by the
first display unit, the 2-D path replaces each sequence by its rescaled
copy — and consequently whenever the unit differs from 1 and some supplied
value is nonzero, the sequence no longer holds its original values (an
all-zero sequence is unchanged). -/
theorem c10_amended_values_scaled :
    (∀ (f : Aircraft → ℝ) (cfg : Aircraft) (p : String) (values du : List ℝ),
      (PS.parametricStudy1D f cfg p values du).map (fun r => r.2.1) =
        (PS.parametricStudy1D f cfg p values du).map
          (fun _ => values.map (fun v => v * du.getD 0 0)))
    ∧ (∀ (f : Aircraft → ℝ) (cfg : Aircraft) (pa pb : String)
        (va vb du : List ℝ),
      (PS.parametricStudy2D f cfg pa pb va vb du).map (fun r => r.2.1) =
        (PS.parametricStudy2D f cfg pa pb va vb du).map
          (fun _ => [va.map (fun v => v * du.getD 0 0),
                     vb.map (fun v => v * du.getD 1 0)]))
    ∧ (∀ (values : List ℝ) (u : ℝ) (i : ℕ), i < values.length →
        values.getD i 0 ≠ 0 → u ≠ 1 →
        values.map (fun v => v * u) ≠ values) := by
  refine ⟨?_, ?_, ?_⟩
  · intro f cfg p values du
    unfold PS.parametricStudy1D
    rcases PS.study1DLoop f p cfg values with _ | ⟨cfgF, outs⟩ <;> rfl
  · intro f cfg pa pb va vb du
    unfold PS.parametricStudy2D
    rcases PS.study2DOuter f pa pb vb cfg va 0
      (zerosGrid vb.length va.length) with _ | ⟨cfgF, mat⟩ <;> rfl
  · intro values u i hi hv hu heq
    have h1 : (values.map (fun v => v * u)).getD i 0 = values.getD i 0 := by
      rw [heq]
    rw [List.getD_eq_getElem _ _ (by simpa using hi),
      List.getD_eq_getElem _ _ hi, List.getElem_map] at h1
    rw [List.getD_eq_getElem _ _ hi] at hv
    have h3 : values[i] * u = values[i] * 1 := by
      rw [mul_one]
      exact h1
    exact hu (mul_left_cancel₀ hv h3)

/-- C10 witness: the amended claim applied concretely — the value list of the caller, here
list [3] with display unit 2 comes back as [6], which differs from the
original. -/
theorem c10_witness :
    (PS.parametricStudy1D batteryMassOf FO.cessna "battery_mass" [3] [2, 1]).map
      (fun r => r.2.1) =
      (PS.parametricStudy1D batteryMassOf FO.cessna "battery_mass" [3] [2, 1]).map
        (fun _ => [3].map (fun v => v * 2))
    ∧ ([3] : List ℝ).map (fun v => v * 2) ≠ [3] := by
  constructor
  · have h := c10_amended_values_scaled.1 batteryMassOf FO.cessna
      "battery_mass" [3] [2, 1]
    simpa using h
  · exact c10_amended_values_scaled.2.2 [3] 2 0 (by norm_num) (by norm_num)
      (by norm_num)

/-- C8.  `opt_cruise` forwards the solver solution unchanged: whenever the
external SLSQP solver meets the solver contract of the spec on the call
`opt_cruise` makes (solution within the supplied bounds, reserve-energy
constraint satisfied to within the tolerance), the value `opt_cruise`
returns lies within [x_lb, x_ub], satisfies the remaining-reserve
constraint to within the tolerance, and its constraint residual is the
available energy minus the mission-spent energy, available for
diagnostics via `bat_reserve`. -/
theorem c8_constrained_search (minimize : OPT.Solver)
    (missionSpent missionRange : ℝ → ℝ) (available_energy : ℝ)
    (hx1 : OPT.x_lb ≤ (minimize (OPT.evaluate_cruise_mission missionRange)
      (70 * 1000) (OPT.x_lb, OPT.x_ub)
      (OPT.bat_reserve missionSpent available_energy) OPT.tolerance).x)
    (hx2 : (minimize (OPT.evaluate_cruise_mission missionRange) (70 * 1000)
      (OPT.x_lb, OPT.x_ub) (OPT.bat_reserve missionSpent available_energy)
      OPT.tolerance).x ≤ OPT.x_ub)
    (hc : -OPT.tolerance ≤ OPT.bat_reserve missionSpent available_energy
      ((minimize (OPT.evaluate_cruise_mission missionRange) (70 * 1000)
        (OPT.x_lb, OPT.x_ub) (OPT.bat_reserve missionSpent available_energy)
        OPT.tolerance).x)) :
    OPT.x_lb ≤ (OPT.opt_cruise minimize missionSpent missionRange
        available_energy).1
    ∧ (OPT.opt_cruise minimize missionSpent missionRange available_energy).1
        ≤ OPT.x_ub
    ∧ -OPT.tolerance ≤ OPT.bat_reserve missionSpent available_energy
        (OPT.opt_cruise minimize missionSpent missionRange available_energy).1
    ∧ OPT.bat_reserve missionSpent available_energy
        (OPT.opt_cruise minimize missionSpent missionRange available_energy).1
      = available_energy - missionSpent
        (OPT.opt_cruise minimize missionSpent missionRange available_energy).1 :=
  ⟨hx1, hx2, hc, rfl⟩

/-- C8 witness: a concrete contract-satisfying solver instance (returning
the lower bound) with a zero-cost mission: the returned distance is within
bounds and feasible. -/
theorem c8_witness :
    OPT.x_lb ≤ (OPT.opt_cruise OPT.solverLB (fun _ => 0) (fun d => d) 1).1
    ∧ (OPT.opt_cruise OPT.solverLB (fun _ => 0) (fun d => d) 1).1 ≤ OPT.x_ub
    ∧ -OPT.tolerance ≤ OPT.bat_reserve (fun _ => 0) 1
        (OPT.opt_cruise OPT.solverLB (fun _ => 0) (fun d => d) 1).1 := by
  have h := c8_constrained_search OPT.solverLB (fun _ => 0) (fun d => d) 1
    (by norm_num [OPT.solverLB, OPT.x_lb])
    (by norm_num [OPT.solverLB, OPT.x_lb, OPT.x_ub])
    (by norm_num [OPT.solverLB, OPT.bat_reserve, OPT.tolerance])
  exact ⟨h.1, h.2.1, h.2.2.1⟩

